import Mathlib

/-!
Verification of the motion-triggered capture pipeline in
tintinInGitHub/english-or-spanish.

The embedded code is the pipeline of src/unnamed/part_000:
`getFrameDifference`, `detectMotion`/`checkForMotion` (the latched
motion detector), `startRecording` with the module-level
`mediaRecorder`/`recordedChunks` state, and `generateGif` (the
decode-then-sample GIF encoder).  Pixel buffers (Uint8ClampedArray)
are lists of byte values; machine numbers are Nat/Int; `video.currentTime`
(a float of seconds) is a rational.
-/

/-- One sampled raster: the RGBA byte buffer (`ImageData.data`,
a `Uint8ClampedArray`) as a list of channel values. -/
abbrev ImageBytes := List Nat

/-- The loop body sum of `getFrameDifference` from index `i` on:
`for (let i = 0; i < data1.length; i += 4)` accumulates
`|data1[i]-data2[i]| + |data1[i+1]-data2[i+1]| + |data1[i+2]-data2[i+2]|`,
skipping the fourth (alpha) channel of every pixel. -/
def getFrameDifferenceAux (data1 data2 : ImageBytes) (i : Nat) : Int :=
  if h : i < data1.length then
    (|(data1.getD i 0 : Int) - (data2.getD i 0 : Int)| +
     |(data1.getD (i + 1) 0 : Int) - (data2.getD (i + 1) 0 : Int)| +
     |(data1.getD (i + 2) 0 : Int) - (data2.getD (i + 2) 0 : Int)|) +
    getFrameDifferenceAux data1 data2 (i + 4)
  else 0
termination_by data1.length - i
decreasing_by simp_wf; omega

/-- `getFrameDifference(data1, data2)` of src/unnamed/part_000 lines 375-383:
the accumulated per-channel absolute difference over the R, G, B channels
of every pixel, starting at index 0. -/
def getFrameDifference (data1 data2 : ImageBytes) : Int :=
  getFrameDifferenceAux data1 data2 0

/-- The closure state of one `detectMotion` instance:
`lastImageData` (initially null) and the `motionDetected` latch
(initially false). -/
structure DetectorState where
  lastImageData : Option ImageBytes
  motionDetected : Bool
deriving Repr, DecidableEq

/-- Detector state right after `detectMotion` sets up its interval. -/
def initialDetector : DetectorState :=
  { lastImageData := none, motionDetected := false }

/-- One `checkForMotion()` tick of src/unnamed/part_000 lines 343-369.
`sample` is the freshly drawn `ImageData` when the video element is
available, `none` when the early returns hit (no track / no element).
Returns the updated closure state and whether the caller-supplied
`callback()` fired on this tick. -/
def checkForMotion (s : DetectorState) (sample : Option ImageBytes) :
    DetectorState × Bool :=
  match sample with
  | none => (s, false)
  | some imageData =>
    match s.lastImageData with
    | none =>
      ({ lastImageData := some imageData, motionDetected := s.motionDetected },
       false)
    | some last =>
      if getFrameDifference imageData last > 7718920 ∧ s.motionDetected = false
      then
        ({ lastImageData := some imageData, motionDetected := true }, true)
      else
        ({ lastImageData := some imageData, motionDetected := s.motionDetected },
         false)

/-- Run the detector over a sequence of interval ticks, returning the
final closure state and the number of times the callback fired. -/
def runTicks (s : DetectorState) : List (Option ImageBytes) → DetectorState × Nat
  | [] => (s, 0)
  | sample :: rest =>
    let step := checkForMotion s sample
    let tail := runTicks step.1 rest
    (tail.1, (if step.2 then 1 else 0) + tail.2)

/-- Per-pixel RGB difference of pixel `p` in a 4-channel row-major buffer:
`|R1-R2| + |G1-G2| + |B1-B2|`, the alpha channel at offset `4p+3` excluded. -/
def pixelDifference (data1 data2 : ImageBytes) (p : Nat) : Int :=
  |(data1.getD (4 * p) 0 : Int) - (data2.getD (4 * p) 0 : Int)| +
  |(data1.getD (4 * p + 1) 0 : Int) - (data2.getD (4 * p + 1) 0 : Int)| +
  |(data1.getD (4 * p + 2) 0 : Int) - (data2.getD (4 * p + 2) 0 : Int)|

theorem getFrameDifferenceAux_step (data1 data2 : ImageBytes) (i : Nat)
    (h : i < data1.length) :
    getFrameDifferenceAux data1 data2 i =
    (|(data1.getD i 0 : Int) - (data2.getD i 0 : Int)| +
     |(data1.getD (i + 1) 0 : Int) - (data2.getD (i + 1) 0 : Int)| +
     |(data1.getD (i + 2) 0 : Int) - (data2.getD (i + 2) 0 : Int)|) +
    getFrameDifferenceAux data1 data2 (i + 4) := by
  rw [getFrameDifferenceAux]
  simp [h]

theorem getFrameDifferenceAux_stop (data1 data2 : ImageBytes) (i : Nat)
    (h : ¬ i < data1.length) :
    getFrameDifferenceAux data1 data2 i = 0 := by
  rw [getFrameDifferenceAux]
  simp [h]

theorem getFrameDifferenceAux_nonneg (data1 data2 : ImageBytes) :
    ∀ m i, data1.length - i ≤ m → 0 ≤ getFrameDifferenceAux data1 data2 i := by
  intro m
  induction m with
  | zero =>
    intro i hi
    rw [getFrameDifferenceAux_stop data1 data2 i (by omega)]
  | succ m ih =>
    intro i hi
    by_cases hlt : i < data1.length
    · rw [getFrameDifferenceAux_step data1 data2 i hlt]
      have h4 : 0 ≤ getFrameDifferenceAux data1 data2 (i + 4) :=
        ih (i + 4) (by omega)
      positivity
    · rw [getFrameDifferenceAux_stop data1 data2 i hlt]

theorem getFrameDifference_nonneg (data1 data2 : ImageBytes) :
    0 ≤ getFrameDifference data1 data2 :=
  getFrameDifferenceAux_nonneg data1 data2 data1.length 0 (by omega)

theorem getFrameDifferenceAux_eq_sum_Ico (data1 data2 : ImageBytes) (n : Nat)
    (h1 : data1.length = 4 * n) :
    ∀ m k, n - k ≤ m →
      getFrameDifferenceAux data1 data2 (4 * k) =
        ∑ p in Finset.Ico k n, pixelDifference data1 data2 p := by
  intro m
  induction m with
  | zero =>
    intro k hk
    have hkn : n ≤ k := by omega
    rw [getFrameDifferenceAux_stop data1 data2 (4 * k) (by omega),
        Finset.Ico_eq_empty (by omega), Finset.sum_empty]
  | succ m ih =>
    intro k hk
    by_cases hkn : k < n
    · have hlt : 4 * k < data1.length := by omega
      rw [getFrameDifferenceAux_step data1 data2 (4 * k) hlt,
          Finset.sum_eq_sum_Ico_succ_bot hkn]
      have h4 : 4 * k + 4 = 4 * (k + 1) := by ring
      rw [h4, ih (k + 1) (by omega)]
      unfold pixelDifference
      ring
    · rw [getFrameDifferenceAux_stop data1 data2 (4 * k) (by omega),
          Finset.Ico_eq_empty (by omega), Finset.sum_empty]

/-- Sum characterization of the difference loop: over two buffers of `n`
4-channel pixels it totals the per-pixel RGB deltas, alpha excluded. -/
theorem getFrameDifference_eq_sum (data1 data2 : ImageBytes) (n : Nat)
    (h1 : data1.length = 4 * n) :
    getFrameDifference data1 data2 =
      ∑ p in Finset.range n, pixelDifference data1 data2 p := by
  have h := getFrameDifferenceAux_eq_sum_Ico data1 data2 n h1 n 0 (by omega)
  norm_num at h
  exact h

theorem getFrameDifferenceAux_self (data : ImageBytes) :
    ∀ m i, data.length - i ≤ m → getFrameDifferenceAux data data i = 0 := by
  intro m
  induction m with
  | zero =>
    intro i hi
    rw [getFrameDifferenceAux_stop data data i (by omega)]
  | succ m ih =>
    intro i hi
    by_cases hlt : i < data.length
    · rw [getFrameDifferenceAux_step data data i hlt, ih (i + 4) (by omega)]
      simp
    · rw [getFrameDifferenceAux_stop data data i hlt]

theorem getFrameDifference_self (data : ImageBytes) :
    getFrameDifference data data = 0 :=
  getFrameDifferenceAux_self data data.length 0 (by omega)

theorem runTicks_nil (s : DetectorState) : runTicks s [] = (s, 0) := rfl

theorem runTicks_cons (s : DetectorState) (sample : Option ImageBytes)
    (rest : List (Option ImageBytes)) :
    runTicks s (sample :: rest) =
      ((runTicks (checkForMotion s sample).1 rest).1,
       (if (checkForMotion s sample).2 then 1 else 0) +
         (runTicks (checkForMotion s sample).1 rest).2) := rfl

theorem checkForMotion_none (s : DetectorState) :
    checkForMotion s none = (s, false) := rfl

/-- The callback fires on a tick exactly when a sample was drawn, a previous
sample existed, their difference exceeds the threshold, and the latch is
still clear. -/
theorem checkForMotion_fires_iff (s : DetectorState) (sample : Option ImageBytes) :
    (checkForMotion s sample).2 = true ↔
      ∃ imageData last, sample = some imageData ∧ s.lastImageData = some last ∧
        getFrameDifference imageData last > 7718920 ∧ s.motionDetected = false := by
  cases sample with
  | none => simp [checkForMotion]
  | some img =>
    cases hl : s.lastImageData with
    | none => simp [checkForMotion, hl]
    | some last =>
      by_cases hc : getFrameDifference img last > 7718920 ∧ s.motionDetected = false
      · simp [checkForMotion, hl, hc]
      · simp only [checkForMotion, hl, if_neg hc]
        constructor
        · intro hfalse
          exact absurd hfalse (by simp)
        · rintro ⟨img2, last2, heq, hl2, hgt, hm⟩
          cases heq
          cases hl2
          exact absurd ⟨hgt, hm⟩ hc

theorem checkForMotion_fired_latches (s : DetectorState) (sample : Option ImageBytes)
    (h : (checkForMotion s sample).2 = true) :
    (checkForMotion s sample).1.motionDetected = true := by
  cases sample with
  | none => simp [checkForMotion] at h
  | some img =>
    cases hl : s.lastImageData with
    | none => simp [checkForMotion, hl] at h
    | some last =>
      by_cases hc : getFrameDifference img last > 7718920 ∧ s.motionDetected = false
      · simp [checkForMotion, hl, hc]
      · simp [checkForMotion, hl, hc] at h

theorem checkForMotion_not_fired_keeps_latch (s : DetectorState)
    (sample : Option ImageBytes) (h : (checkForMotion s sample).2 = false) :
    (checkForMotion s sample).1.motionDetected = s.motionDetected := by
  cases sample with
  | none => rfl
  | some img =>
    cases hl : s.lastImageData with
    | none => simp [checkForMotion, hl]
    | some last =>
      by_cases hc : getFrameDifference img last > 7718920 ∧ s.motionDetected = false
      · simp [checkForMotion, hl, hc] at h
      · simp [checkForMotion, hl, hc]

theorem checkForMotion_latched (s : DetectorState) (sample : Option ImageBytes)
    (h : s.motionDetected = true) :
    (checkForMotion s sample).2 = false ∧
      (checkForMotion s sample).1.motionDetected = true := by
  cases sample with
  | none => exact ⟨rfl, h⟩
  | some img =>
    cases hl : s.lastImageData with
    | none => simp [checkForMotion, hl, h]
    | some last => simp [checkForMotion, hl, h]

/-- Once the `motionDetected` latch is set it is never reset, and no event
fires on any later tick. -/
theorem runTicks_latched (ticks : List (Option ImageBytes)) :
    ∀ s : DetectorState, s.motionDetected = true →
      (runTicks s ticks).2 = 0 ∧ (runTicks s ticks).1.motionDetected = true := by
  induction ticks with
  | nil => intro s h; exact ⟨rfl, h⟩
  | cons sample rest ih =>
    intro s h
    have hstep := checkForMotion_latched s sample h
    have htail := ih (checkForMotion s sample).1 hstep.2
    rw [runTicks_cons, hstep.1]
    simpa using htail

theorem runTicks_count_le_one (ticks : List (Option ImageBytes)) :
    ∀ s : DetectorState, s.motionDetected = false → (runTicks s ticks).2 ≤ 1 := by
  induction ticks with
  | nil => intro s _; simp [runTicks_nil]
  | cons sample rest ih =>
    intro s h
    rw [runTicks_cons]
    cases hstep : (checkForMotion s sample).2 with
    | true =>
      have hlatch := checkForMotion_fired_latches s sample hstep
      have htail := runTicks_latched rest (checkForMotion s sample).1 hlatch
      simp [hstep, htail.1]
    | false =>
      have hkeep := checkForMotion_not_fired_keeps_latch s sample hstep
      have := ih (checkForMotion s sample).1 (hkeep.trans h)
      simpa [hstep] using this

/-! ### The 649x480 red-saturation scenario -/

/-- The all-zero previous sample: a 649x480 RGBA buffer of zero bytes. -/
def zeroFrame : ImageBytes := List.replicate (649 * 480 * 4) 0

/-- The current sample of the scenario: red channel 255 at every pixel,
green, blue and alpha equal to the previous sample (zero). -/
def redFrame : ImageBytes :=
  (List.range (649 * 480 * 4)).map (fun i => if i % 4 = 0 then 255 else 0)

theorem redFrame_length : redFrame.length = 4 * (649 * 480) := by
  rw [redFrame, List.length_map, List.length_range]

theorem zeroFrame_length : zeroFrame.length = 4 * (649 * 480) := by
  rw [zeroFrame, List.length_replicate]

theorem redFrame_getD (i : Nat) (hi : i < 649 * 480 * 4) :
    redFrame.getD i 0 = if i % 4 = 0 then 255 else 0 := by
  rw [List.getD_eq_getElem?_getD, redFrame, List.getElem?_map,
      List.getElem?_range hi]
  rfl

theorem zeroFrame_getD (i : Nat) : zeroFrame.getD i 0 = 0 := by
  rw [List.getD_eq_getElem?_getD, zeroFrame, List.getElem?_replicate]
  rcases Nat.lt_or_ge i (649 * 480 * 4) with h | h
  · rw [if_pos h]; rfl
  · rw [if_neg (by omega)]; rfl

theorem pixelDifference_red_zero (p : Nat) (hp : p < 649 * 480) :
    pixelDifference redFrame zeroFrame p = 255 := by
  unfold pixelDifference
  rw [redFrame_getD (4 * p) (by omega), redFrame_getD (4 * p + 1) (by omega),
      redFrame_getD (4 * p + 2) (by omega),
      zeroFrame_getD, zeroFrame_getD, zeroFrame_getD]
  rw [if_pos (by omega), if_neg (by omega), if_neg (by omega)]
  norm_num

/-- The difference of the red-saturated sample against the all-zero sample,
computed by the source loop, is 649*480*255 = 79,437,600. -/
theorem getFrameDifference_red_zero :
    getFrameDifference redFrame zeroFrame = 79437600 := by
  rw [getFrameDifference_eq_sum redFrame zeroFrame (649 * 480) redFrame_length]
  rw [Finset.sum_congr rfl
    (fun p hp => pixelDifference_red_zero p (Finset.mem_range.mp hp))]
  rw [Finset.sum_const, Finset.card_range]
  norm_num

/-! ### Claim theorems: motion detector -/

theorem runTicks_cons_eq (s s' : DetectorState) (fired : Bool)
    (sample : Option ImageBytes) (rest : List (Option ImageBytes))
    (h : checkForMotion s sample = (s', fired)) :
    runTicks s (sample :: rest) =
      ((runTicks s' rest).1,
       (if fired then 1 else 0) + (runTicks s' rest).2) := by
  rw [runTicks_cons, h]

theorem checkForMotion_red_after_zero :
    checkForMotion { lastImageData := some zeroFrame, motionDetected := false }
        (some redFrame) =
      ({ lastImageData := some redFrame, motionDetected := true }, true) := by
  show (if getFrameDifference redFrame zeroFrame > 7718920 ∧ (false : Bool) = false
        then (({ lastImageData := some redFrame, motionDetected := true } :
                DetectorState), true)
        else ({ lastImageData := some redFrame, motionDetected := false }, false)) =
      ({ lastImageData := some redFrame, motionDetected := true }, true)
  rw [if_pos ⟨by rw [getFrameDifference_red_zero]; norm_num, rfl⟩]

theorem runTicks_zero_then_red :
    runTicks initialDetector [some zeroFrame, some redFrame] =
      ({ lastImageData := some redFrame, motionDetected := true }, 1) := by
  rw [runTicks_cons_eq initialDetector
        { lastImageData := some zeroFrame, motionDetected := false } false
        (some zeroFrame) [some redFrame] rfl,
      runTicks_cons_eq { lastImageData := some zeroFrame, motionDetected := false }
        { lastImageData := some redFrame, motionDetected := true } true
        (some redFrame) [] checkForMotion_red_after_zero,
      runTicks_nil]
  norm_num

/-- C1: on every tick sequence the callback fires exactly on a tick whose
drawn sample differs from the stored previous sample by more than the
threshold while the `motionDetected` latch is clear; firing sets the latch;
a set latch is never reset and suppresses every later event; hence at most
one event fires over a detector instance's lifetime. -/
theorem C1_detection_fires_at_most_once :
    (∀ (s : DetectorState) (sample : Option ImageBytes),
      ((checkForMotion s sample).2 = true ↔
        ∃ imageData last, sample = some imageData ∧
          s.lastImageData = some last ∧
          getFrameDifference imageData last > 7718920 ∧
          s.motionDetected = false)) ∧
    (∀ (s : DetectorState) (sample : Option ImageBytes),
      (checkForMotion s sample).2 = true →
        (checkForMotion s sample).1.motionDetected = true) ∧
    (∀ (s : DetectorState) (ticks : List (Option ImageBytes)),
      s.motionDetected = true →
        (runTicks s ticks).2 = 0 ∧ (runTicks s ticks).1.motionDetected = true) ∧
    (∀ ticks : List (Option ImageBytes),
      (runTicks initialDetector ticks).2 ≤ 1) :=
  ⟨checkForMotion_fires_iff,
   checkForMotion_fired_latches,
   fun s ticks h => runTicks_latched ticks s h,
   fun ticks => runTicks_count_le_one ticks initialDetector rfl⟩

theorem C1_detection_fires_at_most_once_witness :
    ((checkForMotion initialDetector (some [0, 0, 0, 0])).2 = true ↔
      ∃ imageData last, some [0, 0, 0, 0] = some imageData ∧
        initialDetector.lastImageData = some last ∧
        getFrameDifference imageData last > 7718920 ∧
        initialDetector.motionDetected = false) ∧
    (checkForMotion ⟨some [0, 0, 0, 0], false⟩
        (some [8000000, 0, 0, 0])).1.motionDetected = true ∧
    ((runTicks ⟨some [0, 0, 0, 0], true⟩ [some [9, 9, 9, 9]]).2 = 0 ∧
      (runTicks ⟨some [0, 0, 0, 0], true⟩
        [some [9, 9, 9, 9]]).1.motionDetected = true) ∧
    (runTicks initialDetector [some [0, 0, 0, 0]]).2 ≤ 1 := by
  have hdiff : getFrameDifference [8000000, 0, 0, 0] [0, 0, 0, 0] = 8000000 := by
    rw [getFrameDifference, getFrameDifferenceAux_step _ _ _ (by norm_num),
        getFrameDifferenceAux_stop _ _ _ (by norm_num)]
    norm_num [List.getD]
  refine ⟨C1_detection_fires_at_most_once.1 initialDetector (some [0, 0, 0, 0]),
    C1_detection_fires_at_most_once.2.1 ⟨some [0, 0, 0, 0], false⟩
      (some [8000000, 0, 0, 0]) ?_,
    C1_detection_fires_at_most_once.2.2.1 ⟨some [0, 0, 0, 0], true⟩
      [some [9, 9, 9, 9]] rfl,
    C1_detection_fires_at_most_once.2.2.2 [some [0, 0, 0, 0]]⟩
  norm_num [checkForMotion, hdiff]

/-- C2: for every pair of same-dimension frames in 4-channel row-major
layout, the computed difference equals the sum over all pixels of
`|R1-R2| + |G1-G2| + |B1-B2|` with the alpha channel excluded, and it is a
non-negative integer. -/
theorem C2_difference_is_rgb_sum_alpha_excluded (data1 data2 : ImageBytes)
    (n : Nat) (h1 : data1.length = 4 * n) (h2 : data2.length = 4 * n) :
    getFrameDifference data1 data2 =
      ∑ p in Finset.range n, pixelDifference data1 data2 p ∧
    0 ≤ getFrameDifference data1 data2 :=
  ⟨getFrameDifference_eq_sum data1 data2 n h1,
   getFrameDifference_nonneg data1 data2⟩

theorem C2_difference_is_rgb_sum_alpha_excluded_witness :
    getFrameDifference [1, 2, 3, 4] [0, 0, 0, 0] =
      ∑ p in Finset.range 1, pixelDifference [1, 2, 3, 4] [0, 0, 0, 0] p ∧
    0 ≤ getFrameDifference [1, 2, 3, 4] [0, 0, 0, 0] :=
  C2_difference_is_rgb_sum_alpha_excluded [1, 2, 3, 4] [0, 0, 0, 0] 1
    (by norm_num) (by norm_num)

/-- C4 as stated is false on the code: for the all-zero previous sample
and the red-saturated current sample at 649x480 the computed difference is
79,437,600, not the claimed 79,423,200 (the spec's product is a
miscalculation: 649*480*255 = 79,437,600). -/
theorem C4_counterexample_wrong_product :
    getFrameDifference redFrame zeroFrame = 79437600 ∧
    ¬ getFrameDifference redFrame zeroFrame = 79423200 := by
  refine ⟨getFrameDifference_red_zero, ?_⟩
  rw [getFrameDifference_red_zero]
  norm_num

/-- C4 (amended): for the all-zero previous 649x480 sample and the current
sample with red 255 at every pixel (green and blue unchanged), the computed
difference is 649*480*255 = 79,437,600, this exceeds the threshold
7,718,920, and exactly one detection event fires. -/
theorem C4_red_saturation_one_event :
    getFrameDifference redFrame zeroFrame = 649 * 480 * 255 ∧
    getFrameDifference redFrame zeroFrame = 79437600 ∧
    getFrameDifference redFrame zeroFrame > 7718920 ∧
    (runTicks initialDetector [some zeroFrame, some redFrame]).2 = 1 := by
  refine ⟨?_, getFrameDifference_red_zero, ?_, ?_⟩
  · rw [getFrameDifference_red_zero]; norm_num
  · rw [getFrameDifference_red_zero]; norm_num
  · rw [runTicks_zero_then_red]

/-- C5: the difference of any frame against itself is 0, and a tick
comparing two identical samples fires no detection event (0 is not above
the positive threshold). -/
theorem C5_identical_frames_no_event :
    ∀ (data : ImageBytes) (b : Bool),
      getFrameDifference data data = 0 ∧
      (checkForMotion ⟨some data, b⟩ (some data)).2 = false := by
  intro data b
  refine ⟨getFrameDifference_self data, ?_⟩
  have h0 := getFrameDifference_self data
  simp [checkForMotion, h0]

theorem runTicks_replicate_none (k : Nat) (s : DetectorState) :
    runTicks s (List.replicate k none) = (s, 0) := by
  induction k with
  | zero => rfl
  | succ k ih => simpa [List.replicate_succ, runTicks_cons, checkForMotion_none]
      using ih

theorem runTicks_append (xs ys : List (Option ImageBytes)) :
    ∀ s : DetectorState,
      runTicks s (xs ++ ys) =
        ((runTicks (runTicks s xs).1 ys).1,
         (runTicks s xs).2 + (runTicks (runTicks s xs).1 ys).2) := by
  induction xs with
  | nil => intro s; simp [runTicks_nil]
  | cons x rest ih =>
    intro s
    rw [List.cons_append, runTicks_cons, runTicks_cons, ih]
    cases (checkForMotion s x).2 <;> simp <;> omega

/-- C9: when no previous sample exists, a tick stores the current sample
and fires nothing, whatever the frame's content; so after any run of
unavailable-source ticks, the first successfully drawn sample never fires. -/
theorem C9_first_sample_never_fires :
    ∀ (b : Bool) (img : ImageBytes) (k : Nat),
      checkForMotion ⟨none, b⟩ (some img) =
        ({ lastImageData := some img, motionDetected := b }, false) ∧
      runTicks initialDetector (List.replicate k none ++ [some img]) =
        ({ lastImageData := some img, motionDetected := false }, 0) := by
  intro b img k
  refine ⟨rfl, ?_⟩
  rw [runTicks_append, runTicks_replicate_none]
  rfl

/-! ### Recording module: startRecording, recordedChunks, stop timer -/

/-- The module-level recording state of src/unnamed/part_000 lines 385-416:
the `mediaRecorder` variable (the most recently assigned recorder),
the shared `recordedChunks` buffer (chunks modelled by their byte size),
per-recorder activity (index = creation order; `true` while recording),
the pending `setTimeout` stop timers (their wall-clock fire times, creation
order), and the argument of every `generateGif` call (the snapshot of
`recordedChunks` from which its video blob is built). -/
structure RecModule where
  mediaRecorder : Option Nat
  recordedChunks : List Nat
  recorders : List Bool
  stopTimers : List Nat
  encodeCalls : List (List Nat)
deriving Repr, DecidableEq

/-- Module state at load: `mediaRecorder` unassigned, `recordedChunks = []`. -/
def initRecModule : RecModule :=
  { mediaRecorder := none, recordedChunks := [], recorders := [],
    stopTimers := [], encodeCalls := [] }

/-- Events driving the recording module.
`start t`: `startRecording` is called at wall-clock `t` with a present
video element.  `data rid size`: the `ondataavailable` handler of recorder
`rid` receives a chunk of `size` bytes.  `fireTimer`: the earliest pending
stop timeout fires and runs `mediaRecorder.stop()`. -/
inductive RecEvent where
  | start (t : Nat)
  | data (rid : Nat) (size : Nat)
  | fireTimer
deriving Repr, DecidableEq

/-- One step of the recording module.

`start t` mirrors `startRecording`: with no already-recording check it
creates a new recorder (id = number created so far), assigns the module
`mediaRecorder` variable to it, installs `ondataavailable`/`onstop`,
starts it and schedules one `setTimeout` stop at `t + 5000`.

`data rid size` mirrors the `ondataavailable` handler: the chunk is pushed
onto the shared `recordedChunks` iff `event.data.size > 0`.  That a
recorder only delivers chunks while it is recording is the capture
boundary of the external MediaRecorder (spec section 6); a `data` event
for a stopped recorder is ignored.

`fireTimer` mirrors the timeout body `mediaRecorder.stop()`: it removes
the fired (one-shot) timer and stops whichever recorder the module
variable currently references; stopping a recording recorder triggers its
`onstop = generateGif`, recorded here as an `encodeCalls` entry holding
the `recordedChunks` snapshot the video blob is built from.  `stop()` on
an already-inactive recorder throws and changes nothing. -/
def recStep (s : RecModule) (e : RecEvent) : RecModule :=
  match e with
  | .start t =>
    { s with
      mediaRecorder := some s.recorders.length,
      recorders := s.recorders ++ [true],
      stopTimers := s.stopTimers ++ [t + 5000] }
  | .data rid size =>
    if s.recorders.getD rid false = true ∧ 0 < size then
      { s with recordedChunks := s.recordedChunks ++ [size] }
    else s
  | .fireTimer =>
    match s.stopTimers with
    | [] => s
    | _ :: rest =>
      match s.mediaRecorder with
      | none => { s with stopTimers := rest }
      | some rid =>
        if s.recorders.getD rid false = true then
          { s with
            stopTimers := rest,
            recorders := s.recorders.set rid false,
            encodeCalls := s.encodeCalls ++ [s.recordedChunks] }
        else { s with stopTimers := rest }

/-- Run the recording module over a sequence of events. -/
def runRec (s : RecModule) : List RecEvent → RecModule
  | [] => s
  | e :: es => runRec (recStep s e) es

theorem runRec_nil (s : RecModule) : runRec s [] = s := rfl

theorem runRec_cons (s : RecModule) (e : RecEvent) (es : List RecEvent) :
    runRec s (e :: es) = runRec (recStep s e) es := rfl

theorem runRec_append (xs ys : List RecEvent) :
    ∀ s : RecModule, runRec s (xs ++ ys) = runRec (runRec s xs) ys := by
  induction xs with
  | nil => intro s; rfl
  | cons x rest ih => intro s; rw [List.cons_append, runRec_cons, runRec_cons, ih]

theorem runRec_data_active (rid : Nat) (cs : List Nat) :
    ∀ s : RecModule, s.recorders.getD rid false = true →
      runRec s (cs.map (RecEvent.data rid)) =
        { s with recordedChunks :=
            s.recordedChunks ++ cs.filter (fun c => decide (0 < c)) } := by
  induction cs with
  | nil => intro s h; simp [runRec_nil]
  | cons c rest ih =>
    intro s h
    rw [List.map_cons, runRec_cons]
    by_cases hc : 0 < c
    · have hstep : recStep s (RecEvent.data rid c) =
          { s with recordedChunks := s.recordedChunks ++ [c] } := by
        simp only [recStep]
        rw [if_pos ⟨h, hc⟩]
      rw [hstep, ih _ (by simpa using h)]
      simp [List.filter_cons, hc]
    · have hstep : recStep s (RecEvent.data rid c) = s := by
        simp only [recStep]
        rw [if_neg (fun hcontra => hc hcontra.2)]
      rw [hstep, ih s h]
      simp [List.filter_cons, hc]

theorem runRec_data_inactive (rid : Nat) (cs : List Nat) :
    ∀ s : RecModule, s.recorders.getD rid false = false →
      runRec s (cs.map (RecEvent.data rid)) = s := by
  induction cs with
  | nil => intro s _; rfl
  | cons c rest ih =>
    intro s h
    rw [List.map_cons, runRec_cons]
    have hstep : recStep s (RecEvent.data rid c) = s := by
      simp only [recStep]
      rw [if_neg (fun hcontra => by rw [h] at hcontra; exact absurd hcontra.1 (by simp))]
    rw [hstep, ih s h]

theorem replicate_append_true_getD (k : Nat) :
    (List.replicate k false ++ [true]).getD k false = true := by
  rw [List.getD_eq_getElem?_getD, List.getElem?_append_right (by simp)]
  simp

theorem replicate_append_true_set (k : Nat) :
    (List.replicate k false ++ [true]).set k false =
      List.replicate (k + 1) false := by
  rw [List.set_append_right _ _ (by simp)]
  simp [List.replicate_succ']

/-- Effect of one full recording session: a `start` at time `t`, the
chunk deliveries of the new recorder, then its stop timer firing. -/
theorem runRec_session (k t : Nat) (cs : List Nat) (s : RecModule)
    (hrec : s.recorders = List.replicate k false)
    (htim : s.stopTimers = []) :
    runRec s ([RecEvent.start t] ++ cs.map (RecEvent.data k) ++
        [RecEvent.fireTimer]) =
      { mediaRecorder := some k,
        recordedChunks := s.recordedChunks ++
          cs.filter (fun c => decide (0 < c)),
        recorders := List.replicate (k + 1) false,
        stopTimers := [],
        encodeCalls := s.encodeCalls ++
          [s.recordedChunks ++ cs.filter (fun c => decide (0 < c))] } := by
  have h1 : recStep s (RecEvent.start t) =
      { s with
        mediaRecorder := some k
        recorders := List.replicate k false ++ [true]
        stopTimers := [t + 5000] } := by
    simp [recStep, hrec, htim]
  rw [List.append_assoc, List.singleton_append, runRec_cons, h1, runRec_append,
      runRec_data_active k cs _ (by simpa using replicate_append_true_getD k)]
  rw [runRec_cons, runRec_nil]
  simp [recStep, replicate_append_true_getD, replicate_append_true_set,
    List.replicate_succ']

/-! ### Claim theorems: recording controller -/

/-- C3 fails as stated: calling `startRecording` twice with no intervening
stop is not rejected — after the double start two recorders are recording
simultaneously, and the second call changed the module state (not a no-op). -/
theorem C3_counterexample_double_start :
    (runRec initRecModule
        [RecEvent.start 0, RecEvent.start 2000]).recorders.count true = 2 ∧
    runRec initRecModule [RecEvent.start 0, RecEvent.start 2000] ≠
      runRec initRecModule [RecEvent.start 0] := by
  refine ⟨rfl, ?_⟩
  decide

/-- C3 (amended): `startRecording` has no already-recording guard.  A
second call while recording starts a second recorder, so two recorders
are active at once, the module `mediaRecorder` variable is overwritten to
the second one, and both stop timers are pending; when the first session's
timer fires, `mediaRecorder.stop()` stops the second session's recorder
while the first keeps recording, and the premature stop hands the shared
(here still empty) chunk buffer to `generateGif`. -/
theorem C3_second_start_not_rejected (t1 t2 : Nat) :
    runRec initRecModule [RecEvent.start t1, RecEvent.start t2] =
      { mediaRecorder := some 1
        recordedChunks := []
        recorders := [true, true]
        stopTimers := [t1 + 5000, t2 + 5000]
        encodeCalls := [] } ∧
    recStep (runRec initRecModule [RecEvent.start t1, RecEvent.start t2])
        RecEvent.fireTimer =
      { mediaRecorder := some 1
        recordedChunks := []
        recorders := [true, false]
        stopTimers := [t2 + 5000]
        encodeCalls := [[]] } :=
  ⟨rfl, rfl⟩

/-- C8: one `startRecording` at time `t` schedules exactly one one-shot
stop timer for `t + 5000`; when it fires, the session is sealed — chunk
deliveries after the stop are not appended — and exactly one
`generateGif` encode is triggered, on the session's own (non-empty, given
at least one non-empty chunk) chunk sequence. -/
theorem C8_single_start_one_seal_one_encode (t : Nat) (cs ds : List Nat)
    (hne : ∃ c ∈ cs, 0 < c) :
    (recStep initRecModule (RecEvent.start t)).stopTimers = [t + 5000] ∧
    runRec initRecModule
        ([RecEvent.start t] ++ cs.map (RecEvent.data 0) ++
          [RecEvent.fireTimer] ++ ds.map (RecEvent.data 0)) =
      { mediaRecorder := some 0
        recordedChunks := cs.filter (fun c => decide (0 < c))
        recorders := [false]
        stopTimers := []
        encodeCalls := [cs.filter (fun c => decide (0 < c))] } ∧
    cs.filter (fun c => decide (0 < c)) ≠ [] := by
  refine ⟨rfl, ?_, ?_⟩
  · have hassoc : [RecEvent.start t] ++ cs.map (RecEvent.data 0) ++
        [RecEvent.fireTimer] ++ ds.map (RecEvent.data 0) =
        ([RecEvent.start t] ++ cs.map (RecEvent.data 0) ++
          [RecEvent.fireTimer]) ++ ds.map (RecEvent.data 0) := by
      simp [List.append_assoc]
    rw [hassoc, runRec_append, runRec_session 0 t cs initRecModule rfl rfl]
    exact runRec_data_inactive 0 ds _ rfl
  · obtain ⟨c, hc, hpos⟩ := hne
    have hmem : c ∈ cs.filter (fun c => decide (0 < c)) :=
      List.mem_filter.mpr ⟨hc, by simpa using hpos⟩
    exact List.ne_nil_of_mem hmem

theorem C8_single_start_one_seal_one_encode_witness :
    (recStep initRecModule (RecEvent.start 0)).stopTimers = [0 + 5000] ∧
    runRec initRecModule
        ([RecEvent.start 0] ++ [7, 3].map (RecEvent.data 0) ++
          [RecEvent.fireTimer] ++ [5].map (RecEvent.data 0)) =
      { mediaRecorder := some 0
        recordedChunks := [7, 3].filter (fun c => decide (0 < c))
        recorders := [false]
        stopTimers := []
        encodeCalls := [[7, 3].filter (fun c => decide (0 < c))] } ∧
    [7, 3].filter (fun c => decide (0 < c)) ≠ [] :=
  C8_single_start_one_seal_one_encode 0 [7, 3] [5]
    ⟨7, by norm_num, by norm_num⟩

/-- Event trace of back-to-back recording sessions: session `i` (0-based,
its recorder's id is `k + i`) is a start, that recorder's chunk
deliveries, then its stop timer firing, before the next session starts. -/
def sessionsFrom (k : Nat) : List (List Nat) → List RecEvent
  | [] => []
  | cs :: rest =>
    ([RecEvent.start 0] ++ cs.map (RecEvent.data k) ++ [RecEvent.fireTimer]) ++
      sessionsFrom (k + 1) rest

theorem runRec_sessionsFrom (css : List (List Nat)) :
    ∀ (k : Nat) (s : RecModule),
      s.recorders = List.replicate k false → s.stopTimers = [] →
      (runRec s (sessionsFrom k css)).encodeCalls =
          s.encodeCalls ++ (List.range css.length).map
            (fun i => s.recordedChunks ++
              ((css.take (i + 1)).map
                (fun cs => cs.filter (fun c => decide (0 < c)))).flatten) ∧
      (runRec s (sessionsFrom k css)).recordedChunks =
          s.recordedChunks ++
            (css.map (fun cs => cs.filter (fun c => decide (0 < c)))).flatten ∧
      (runRec s (sessionsFrom k css)).recorders =
          List.replicate (k + css.length) false ∧
      (runRec s (sessionsFrom k css)).stopTimers = [] := by
  induction css with
  | nil =>
    intro k s hrec htim
    simp [sessionsFrom, runRec_nil, hrec, htim]
  | cons cs rest ih =>
    intro k s hrec htim
    rw [sessionsFrom, runRec_append, runRec_session k 0 cs s hrec htim]
    obtain ⟨h1, h2, h3, h4⟩ := ih (k + 1)
      { mediaRecorder := some k
        recordedChunks := s.recordedChunks ++ cs.filter (fun c => decide (0 < c))
        recorders := List.replicate (k + 1) false
        stopTimers := []
        encodeCalls := s.encodeCalls ++
          [s.recordedChunks ++ cs.filter (fun c => decide (0 < c))] } rfl rfl
    refine ⟨?_, ?_, ?_, h4⟩
    · rw [h1]
      simp only [List.length_cons, List.range_succ_eq_map, List.map_cons,
        List.map_map, List.take_succ_cons, List.flatten_cons, Function.comp]
      simp [List.append_assoc]
    · rw [h2]
      simp [List.append_assoc]
    · rw [h3, List.length_cons]
      have hadd : k + 1 + rest.length = k + (rest.length + 1) := by omega
      rw [hadd]

/-- C10: the module-level `recordedChunks` buffer is append-only (no step
of the recording module ever removes a chunk), and for every `n >= 1` the
blob `generateGif` builds after the `n`-th back-to-back recording session
is the concatenation of the (non-empty) chunks of sessions 1 through `n`,
not only the chunks of session `n`. -/
theorem C10_recordedChunks_never_cleared :
    (∀ (s : RecModule) (e : RecEvent),
        s.recordedChunks <+: (recStep s e).recordedChunks) ∧
    (∀ css : List (List Nat),
        (runRec initRecModule (sessionsFrom 0 css)).encodeCalls =
          (List.range css.length).map
            (fun i => ((css.take (i + 1)).map
              (fun cs => cs.filter (fun c => decide (0 < c)))).flatten)) := by
  constructor
  · intro s e
    obtain ⟨mr, rc, recs, timers, enc⟩ := s
    cases e with
    | start t => exact List.prefix_refl _
    | data rid size =>
      by_cases h : recs.getD rid false = true ∧ 0 < size
      · simp only [recStep]
        rw [if_pos h]
        exact List.prefix_append _ _
      · simp only [recStep]
        rw [if_neg h]
    | fireTimer =>
      cases timers with
      | nil => exact List.prefix_refl _
      | cons t rest =>
        cases mr with
        | none => exact List.prefix_refl _
        | some rid =>
          by_cases h : recs.getD rid false = true
          · simp only [recStep]
            rw [if_pos h]
          · simp only [recStep]
            rw [if_neg h]
  · intro css
    have h := (runRec_sessionsFrom css 0 initRecModule rfl rfl).1
    simpa [initRecModule] using h

/-! ### GIF encoding: generateGif of src/unnamed/part_000 lines 418-461 -/

/-- One frame added to the GIF: the `video.currentTime` (seconds; a
rational standing for the float) at which the raster was drawn, and the
`delay` option passed to `gif.addFrame`. -/
structure GifFrame where
  time : ℚ
  delay : Nat
deriving Repr, DecidableEq

/-- State of one encode after playback starts: the frames added so far
and the artifact delivered to `displayGif` once `gif.render()` finished. -/
structure GifState where
  frames : List GifFrame
  delivered : Option (List GifFrame)
deriving Repr, DecidableEq

def initialGifState : GifState := { frames := [], delivered := none }

/-- The `timeupdate` handler of src/unnamed/part_000 lines 442-454 at a
tick where `video.currentTime = t`: if `t >= 5` the video is paused and
`gif.render()` runs.  The gif.js instance is constructed as
`new GIF(workers 2, quality 10)` with no width/height, and gif.js takes
its dimensions from the first `addFrame`; so when zero frames were added,
`render()` throws and the `finished` callback never fires — nothing is
delivered.  With at least one frame, rendering completes and `finished`
hands the collected frames to `displayGif` (once; a repeated `render()`
on the same instance yields no second artifact).  Otherwise (`t < 5`) the
current frame is drawn onto a canvas and `gif.addFrame(canvas, delay 100)`
appends one frame. -/
def handleTimeupdate (s : GifState) (t : ℚ) : GifState :=
  if t ≥ 5 then
    match s.delivered with
    | none =>
      match s.frames with
      | [] => s
      | _ :: _ => { s with delivered := some s.frames }
    | some _ => s
  else
    { s with frames := s.frames ++ [{ time := t, delay := 100 }] }

/-- Process the whole stream of `timeupdate` ticks of one playback. -/
def runGif (ts : List ℚ) : GifState := ts.foldl handleTimeupdate initialGifState

/-- How the intermediate webm clip behaves when `generateGif` re-opens it:
either the `error` listener fires (decode failure), or `loadeddata` fires
and playback produces the given stream of `timeupdate` ticks. -/
inductive ClipLoad where
  | failure
  | loaded (timeupdates : List ℚ)
deriving Repr, DecidableEq

/-- Observable outcome of one `generateGif` call: the video blob built
from the module `recordedChunks`, what (if anything) reached `displayGif`,
and whether the decode-failure path ran — which only writes to the console
(`generateGif` has no failure callback or return value to a caller). -/
structure GifOutcome where
  videoBlob : List Nat
  delivered : Option (List GifFrame)
  errorLogged : Bool
deriving Repr, DecidableEq

/-- `generateGif` of src/unnamed/part_000 lines 418-461, as a function of
the module `recordedChunks` snapshot and of how the clip decodes. -/
def generateGif (chunks : List Nat) : ClipLoad → GifOutcome
  | .failure =>
    { videoBlob := chunks, delivered := none, errorLogged := true }
  | .loaded ts =>
    { videoBlob := chunks, delivered := (runGif ts).delivered,
      errorLogged := false }

theorem foldl_handleTimeupdate_pre (ts : List ℚ) :
    ∀ fs : List GifFrame, (∀ t ∈ ts, t < 5) →
      List.foldl handleTimeupdate { frames := fs, delivered := none } ts =
        { frames := fs ++ ts.map (fun t => { time := t, delay := 100 }),
          delivered := none } := by
  induction ts with
  | nil => intro fs _; simp
  | cons t rest ih =>
    intro fs h
    have ht : t < 5 := h t (by simp)
    rw [List.foldl_cons]
    have hstep : handleTimeupdate { frames := fs, delivered := none } t =
        { frames := fs ++ [{ time := t, delay := 100 }], delivered := none } := by
      simp only [handleTimeupdate]
      rw [if_neg (not_le.mpr ht)]
    rw [hstep, ih _ (fun u hu => h u (by simp [hu]))]
    simp [List.append_assoc]

/-- A playback with at least one tick below 5s before the final tick
at/after 5s draws one frame per early tick and delivers exactly those
frames. -/
theorem runGif_full (ts : List ℚ) (te : ℚ) (hne : ts ≠ [])
    (hts : ∀ t ∈ ts, t < 5) (hte : 5 ≤ te) :
    runGif (ts ++ [te]) =
      { frames := ts.map (fun t => { time := t, delay := 100 }),
        delivered := some (ts.map (fun t => { time := t, delay := 100 })) } := by
  obtain ⟨x, rest, rfl⟩ : ∃ x rest, ts = x :: rest := by
    cases ts with
    | nil => exact absurd rfl hne
    | cons a l => exact ⟨a, l, rfl⟩
  rw [runGif, List.foldl_append]
  have h1 := foldl_handleTimeupdate_pre (x :: rest) [] hts
  rw [show initialGifState =
        { frames := ([] : List GifFrame), delivered := none } from rfl, h1]
  simp only [List.foldl_cons, List.foldl_nil, List.map_cons, List.nil_append,
    handleTimeupdate]
  rw [if_pos hte]

/-- A playback whose very first tick is already at/after the 5-second
mark never added a frame, so `gif.render()` throws without dimensions and
nothing reaches `displayGif`. -/
theorem runGif_zero_frames (te : ℚ) (hte : 5 ≤ te) :
    runGif [te] = initialGifState := by
  rw [runGif, List.foldl_cons, List.foldl_nil]
  show handleTimeupdate initialGifState te = initialGifState
  simp only [handleTimeupdate]
  rw [if_pos hte]
  rfl

/-! ### Claim theorems: clip encoder -/

/-- Timeupdate ticks arriving every 250ms of playback: 0.25s, 0.5s, ...,
4.75s — a legitimate browser cadence for a 5-second clip. -/
def quarterTrace : List ℚ :=
  (List.range 19).map (fun k : Nat => ((k : ℚ) + 1) / 4)

theorem quarterTrace_lt_five : ∀ t ∈ quarterTrace, t < 5 := by
  intro t ht
  rw [quarterTrace, List.mem_map] at ht
  obtain ⟨k, hk, rfl⟩ := ht
  rw [List.mem_range] at hk
  rw [div_lt_iff (by norm_num)]
  have hkq : (k : ℚ) < 19 := by exact_mod_cast hk
  linarith

/-- C6 fails as stated: the encoder adds one frame per `timeupdate` event,
whose cadence the browser chooses; with ticks every 250ms a sealed
5-second session encodes to 19 frames, which is not within one frame of
floor(5000ms / 100ms) = 50. -/
theorem C6_counterexample_cadence_dependent_count :
    (generateGif [1] (ClipLoad.loaded (quarterTrace ++ [5]))).delivered =
      some (quarterTrace.map (fun t => { time := t, delay := 100 })) ∧
    (quarterTrace.map
      (fun t => ({ time := t, delay := 100 } : GifFrame))).length = 19 ∧
    ¬ (50 - 1 ≤ 19 ∧ 19 ≤ 50 + 1) := by
  refine ⟨?_, ?_, by norm_num⟩
  · show (runGif (quarterTrace ++ [5])).delivered = _
    rw [runGif_full quarterTrace 5 (by simp [quarterTrace])
          quarterTrace_lt_five (by norm_num)]
  · rw [List.length_map, quarterTrace, List.length_map, List.length_range]


/-- C6 (amended): encoding a sealed session adds exactly one frame, with
the fixed 100ms delay, per `timeupdate` tick observed before the 5-second
mark and finalizes at the first tick at/after it; the delivered frames
are exactly those ticks in arrival order (temporal order preserved), so
the frame count equals the number of pre-5s ticks — set by the browser's
timeupdate cadence, not by floor(captureDurationMs / perFrameDelayMs). -/
theorem C6_one_frame_per_tick_fixed_delay (chunks : List Nat)
    (ts : List ℚ) (te : ℚ) (hne : ts ≠ [])
    (hts : ∀ t ∈ ts, t < 5) (hte : 5 ≤ te) :
    (generateGif chunks (ClipLoad.loaded (ts ++ [te]))).delivered =
      some (ts.map (fun t => { time := t, delay := 100 })) ∧
    (ts.map (fun t => ({ time := t, delay := 100 } : GifFrame))).length =
      ts.length ∧
    (∀ f ∈ ts.map (fun t => ({ time := t, delay := 100 } : GifFrame)),
      f.delay = 100) ∧
    (ts.map (fun t => ({ time := t, delay := 100 } : GifFrame))).map
      GifFrame.time = ts := by
  refine ⟨?_, by simp, ?_, ?_⟩
  · show (runGif (ts ++ [te])).delivered = _
    rw [runGif_full ts te hne hts hte]
  · intro f hf
    rw [List.mem_map] at hf
    obtain ⟨t, ht, rfl⟩ := hf
    rfl
  · rw [List.map_map]
    have hcomp : (GifFrame.time ∘ fun t => ({ time := t, delay := 100 } : GifFrame)) =
        id := rfl
    rw [hcomp, List.map_id]

theorem C6_one_frame_per_tick_fixed_delay_witness :
    (generateGif [1] (ClipLoad.loaded ([1/10, 2/10] ++ [5]))).delivered =
      some (([1/10, 2/10] : List ℚ).map
        (fun t => { time := t, delay := 100 })) ∧
    (([1/10, 2/10] : List ℚ).map
      (fun t => ({ time := t, delay := 100 } : GifFrame))).length =
      ([1/10, 2/10] : List ℚ).length ∧
    (∀ f ∈ ([1/10, 2/10] : List ℚ).map
      (fun t => ({ time := t, delay := 100 } : GifFrame)), f.delay = 100) ∧
    (([1/10, 2/10] : List ℚ).map
      (fun t => ({ time := t, delay := 100 } : GifFrame))).map
      GifFrame.time = ([1/10, 2/10] : List ℚ) :=
  C6_one_frame_per_tick_fixed_delay [1] [1/10, 2/10] 5 (by simp)
    (by intro t ht; simp at ht; rcases ht with rfl | rfl <;> norm_num)
    (by norm_num)

/-- C7 fails as stated: no failure is ever surfaced to the
caller/orchestrator.  On a decode failure the complete outcome of
`generateGif` is a console log — the function has no failure callback,
return value or error propagation, and its only other outward call,
`displayGif`, is not made (`delivered = none`); and on a clip that
decodes but reaches the 5-second mark with zero drawn frames,
`gif.render()` throws (the gif.js instance has no dimensions) with
`finished` never firing, so that failure too is swallowed with nothing
delivered.  Both failure paths are silent, refuting "surfaces a failure
to the caller/orchestrator" and "no failure other than SourceUnavailable
is silently swallowed". -/
theorem C7_counterexample_failures_swallowed :
    generateGif [9] ClipLoad.failure =
      { videoBlob := [9], delivered := none, errorLogged := true } ∧
    generateGif [9] (ClipLoad.loaded [5]) =
      { videoBlob := [9], delivered := none, errorLogged := false } := by
  refine ⟨rfl, ?_⟩
  show ({ videoBlob := [9], delivered := (runGif [5]).delivered,
          errorLogged := false } : GifOutcome) = _
  rw [runGif_zero_frames 5 (by norm_num)]
  rfl

/-- C7 (amended): neither failure ever reaches the Sink — on a decode
failure nothing is delivered, and on a clip that decodes but yields zero
drawn frames before the 5-second mark `gif.render()` throws (no
dimensions were set) and `finished` never fires, so nothing is delivered
either — but neither failure is surfaced to the caller/orchestrator: the
decode error is only written to the console and `generateGif` has no
failure callback, result or error propagation, so both failures are
silently swallowed. -/
theorem C7_failures_only_logged_nothing_delivered (chunks : List Nat)
    (te : ℚ) (hte : 5 ≤ te) :
    generateGif chunks ClipLoad.failure =
      { videoBlob := chunks, delivered := none, errorLogged := true } ∧
    generateGif chunks (ClipLoad.loaded [te]) =
      { videoBlob := chunks, delivered := none, errorLogged := false } := by
  refine ⟨rfl, ?_⟩
  show ({ videoBlob := chunks, delivered := (runGif [te]).delivered,
          errorLogged := false } : GifOutcome) = _
  rw [runGif_zero_frames te hte]
  rfl

theorem C7_failures_only_logged_nothing_delivered_witness :
    generateGif [9] ClipLoad.failure =
      { videoBlob := [9], delivered := none, errorLogged := true } ∧
    generateGif [9] (ClipLoad.loaded [5]) =
      { videoBlob := [9], delivered := none, errorLogged := false } :=
  C7_failures_only_logged_nothing_delivered [9] 5 (by norm_num)
